import Mathlib

/-!
Verification development for the device-connection core of the
CLDWare/schoolbox-backend repository (Go).

The Go sources are shallowly embedded: persisted rows become Lean
structures, Go maps become association lists (with an explicit helper
reproducing Go's zero-value semantics for missing keys), the dynamically
typed `stateFlow any` carrier becomes a tagged union, randomness and the
HMAC primitive are passed as explicit arguments, and each handler
function becomes a pure Lean function from server state and inbound
frame to new server state plus the list of frames written out.
Time is modelled as a natural number of seconds.
-/

namespace db

/-- `db.Device` (pkg/db, first model file): only the columns the
connection core reads or writes are carried. -/
structure Device where
  id : Nat
  token : String
  lastSeen : Option Nat
  activeSessionID : Option Nat
deriving DecidableEq

/-- `db.Session` (pkg/db): vote counters are stored by SQL increments,
so they are carried as unbounded naturals. -/
structure Session where
  id : Nat
  userID : Nat
  questionID : Nat
  deviceID : Nat
  date : Nat
  firstAnwserTime : Option Nat
  lastAnwserTime : Option Nat
  stoppedAt : Option Nat
  A1_count : Nat
  A2_count : Nat
  A3_count : Nat
  A4_count : Nat
  A5_count : Nat
deriving DecidableEq

/-- The slice of the durable store the connection core touches. -/
structure DB where
  devices : List Device
  sessions : List Session
deriving DecidableEq

/-- `gorm.G[db.Device](db).Where("id = ?", id).First(ctx)`. -/
def findDevice (d : DB) (id : Nat) : Option Device :=
  d.devices.find? (fun dev => dev.id == id)

/-- `gorm.G[models.Session](db).Where("id = ?", id).First(ctx)`. -/
def findSession (d : DB) (id : Nat) : Option Session :=
  d.sessions.find? (fun s => s.id == id)

/-- `gorm.G[models.Device](db).Where("id = ?", id).Update(ctx, "LastSeen", now)`. -/
def updateDeviceLastSeen (d : DB) (id : Nat) (now : Nat) : DB :=
  { d with devices :=
      d.devices.map (fun dev => if dev.id = id then { dev with lastSeen := some now } else dev) }

end db

/-- The values that can sit in a decoded `d` object
(`Data map[string]any`); the handlers only distinguish JSON numbers
(Go `float64`), strings, and everything else.  JSON numbers are
modelled as rationals.  `other` carries the Go type name used by the
`%T` format verb. -/
inductive goValue where
  | num (v : ℚ)
  | str (s : String)
  | other (typeName : String)
deriving DecidableEq

/-- Go type name of a decoded value, as printed by `%T`. -/
def goTypeName : goValue → String
  | .num _ => "float64"
  | .str _ => "string"
  | .other t => t

/-- `websocketMessage` (session.go): `{ "c": ..., "d": {...} }`. -/
structure websocketMessage where
  command : String
  data : List (String × goValue)
deriving DecidableEq

/-- `websocketErrorMessage` (session.go): `ErrorCode int` with JSON tag
`e,omitempty`, `Info *string` with tag `info,omitempty`. -/
structure websocketErrorMessage where
  errorCode : Int
  info : Option String
deriving DecidableEq

/-- A frame written to some channel: either a normal command frame or an
error frame. -/
inductive frame where
  | msg (m : websocketMessage)
  | err (e : websocketErrorMessage)
deriving DecidableEq

/-- `"` + s + `"`; the messages serialized by this core contain no
characters that `encoding/json` escapes. -/
def jsonQuote (s : String) : String := "\x22" ++ s ++ "\x22"

/-- `json.Marshal` of a `websocketErrorMessage` value: fields appear in
declaration order; `omitempty` drops the `e` field when `ErrorCode` is
the zero value `0`, and drops `info` when the pointer is nil. -/
def marshalWebsocketErrorMessage (m : websocketErrorMessage) : String :=
  let eField : List String :=
    if m.errorCode = 0 then [] else [jsonQuote "e" ++ ":" ++ toString m.errorCode]
  let infoField : List String :=
    match m.info with
    | none => []
    | some s => [jsonQuote "info" ++ ":" ++ jsonQuote s]
  "\x7b" ++ String.intercalate "," (eField ++ infoField) ++ "\x7d"

/-- Modelled from the spec: the error-frame wire shape
`{ "e": <integer code>, "info": <string|null> }` (spec section 4.1), in
which the `e` field is always present.  This is the shape the spec
documents, used to compare against the serialization the code produces. -/
def specErrorFrameJSON (m : websocketErrorMessage) : String :=
  "\x7b" ++ jsonQuote "e" ++ ":" ++ toString m.errorCode ++ "," ++
    jsonQuote "info" ++ ":" ++
    (match m.info with
     | some s => jsonQuote s
     | none => "null") ++ "\x7d"

/-- `hex.DecodeString` digit table: value of one hex digit. -/
def hexDigitValue (c : Char) : Option Nat :=
  if ('0' ≤ c ∧ c ≤ '9') then some (c.toNat - 48)
  else if ('a' ≤ c ∧ c ≤ 'f') then some (c.toNat - 97 + 10)
  else if ('A' ≤ c ∧ c ≤ 'F') then some (c.toNat - 65 + 10)
  else none

/-- `hex.DecodeString` over the character list: bytes are decoded two
digits at a time; an odd-length input or a non-hex digit is an error. -/
def hexDecodeList : List Char → Option (List Nat)
  | [] => some []
  | [_] => none
  | hi :: lo :: rest =>
    match hexDigitValue hi, hexDigitValue lo, hexDecodeList rest with
    | some h, some l, some bs => some ((16 * h + l) :: bs)
    | _, _, _ => none

/-- `hex.DecodeString` (encoding/hex). -/
def hexDecode (s : String) : Option (List Nat) :=
  hexDecodeList s.toList

/-- Go map insert `m[k] = v` for a map modelled as an association list:
any previous binding of `k` is replaced. -/
def mapInsert (m : List (Nat × Nat)) (k v : Nat) : List (Nat × Nat) :=
  (k, v) :: m.filter (fun p => p.1 ≠ k)

/-- Go map delete `delete(m, k)`. -/
def mapDelete (m : List (Nat × Nat)) (k : Nat) : List (Nat × Nat) :=
  m.filter (fun p => p.1 ≠ k)

/-- Go map read `m[k]` without the `, ok` form: a missing key yields the
zero value `0`.  The kick logic in `authenticationFlow` reads
`connectedDevices` this way. -/
def goMapGet (m : List (Nat × Nat)) (k : Nat) : Nat :=
  (m.lookup k).getD 0

/-- `authenticationFlowData` (part_010). -/
structure authenticationFlowData where
  startedAt : Nat
  flowTimeout : Nat
  targetID : Nat
  nonce : String
deriving DecidableEq

/-- `sessionFlowData` (part_011). -/
structure sessionFlowData where
  sessionID : Nat
  started : Nat
deriving DecidableEq

/-- The dynamically typed `stateFlow any` carrier, as the tagged union of
the flow-data types it actually holds (`nil`, `registrationFlowData`,
`authenticationFlowData`, `sessionFlowData`).  A Go type assertion
`conn.stateFlow.(T)` is a match on the corresponding constructor. -/
inductive stateFlowData where
  | nofl
  | registration (pin : Nat)
  | auth (d : authenticationFlowData)
  | session (d : sessionFlowData)
deriving DecidableEq

/-- `websocketConnection` (session.go): the fields the claims touch.
States: 0 none; 1 registering; 2 authenticating; 3 authenticated;
4 active_session. -/
structure websocketConnection where
  connectionID : Nat
  deviceID : Option Nat
  state : Nat
  stateFlow : stateFlowData
  connectedAt : Nat
  latestMessage : Nat
  pingsSent : Nat
  pongsReceived : Nat
deriving DecidableEq

/-- `WebsocketHandler` (session.go): the process-wide hub.  The three Go
maps are association lists; `connectedDevices` maps device-id to
connection-id, `registrationPins` maps pin to connection-id. -/
structure WebsocketHandler where
  connections : List (Nat × websocketConnection)
  nextID : Nat
  connectedDevices : List (Nat × Nat)
  registrationPins : List (Nat × Nat)
  db : db.DB
deriving DecidableEq

/-- `NewWebsocketHandler`: empty maps, `nextID: 0`. -/
def NewWebsocketHandler (d : db.DB) : WebsocketHandler :=
  { connections := [], nextID := 0, connectedDevices := [], registrationPins := [], db := d }

/-- Store a connection back into the hub under its id (Go shares the
`*websocketConnection` pointer; the embedding writes the updated value
through explicitly). -/
def setConn (h : WebsocketHandler) (c : websocketConnection) : WebsocketHandler :=
  { h with connections := (c.connectionID, c) :: h.connections.filter (fun p => p.1 ≠ c.connectionID) }

/-- `InitialiseWebsocket` connection construction plus
`(h *WebsocketHandler) addConnection`: a fresh connection in state 0
receives `h.nextID` as its id and the counter is advanced. -/
def addConnection (h : WebsocketHandler) (now : Nat) : WebsocketHandler × websocketConnection :=
  let c : websocketConnection :=
    { connectionID := h.nextID, deviceID := none, state := 0, stateFlow := .nofl,
      connectedAt := now, latestMessage := now, pingsSent := 0, pongsReceived := 0 }
  ({ h with connections := (h.nextID, c) :: h.connections.filter (fun p => p.1 ≠ h.nextID),
            nextID := h.nextID + 1 }, c)

/-- `(conn *websocketConnection) close()` (session.go): drop the
connection from `connections`, drop its `connectedDevices` entry when a
device is bound, and drop its `registrationPins` entry when its flow
data is a registration pin. -/
def closeConnection (h : WebsocketHandler) (c : websocketConnection) : WebsocketHandler :=
  let h := { h with connections := h.connections.filter (fun p => p.1 ≠ c.connectionID) }
  let h :=
    match c.deviceID with
    | some d => { h with connectedDevices := mapDelete h.connectedDevices d }
    | none => h
  match c.stateFlow with
  | .registration pin => { h with registrationPins := mapDelete h.registrationPins pin }
  | _ => h

/-- `websocketAuthStartMessage` (part_010). -/
structure websocketAuthStartMessage where
  command : String
  targetID : Nat
deriving DecidableEq

/-- `toWebsocketAuthStartMessage` (part_010).  The Go test
`v < 0 || v != math.Trunc(v)` on the `float64` is rendered on rationals
as `v < 0 ∨ v.den ≠ 1` (a rational equals its truncation exactly when
its denominator is 1). -/
def toWebsocketAuthStartMessage (m : websocketMessage) :
    Except websocketErrorMessage websocketAuthStartMessage :=
  if m.command ≠ "auth_start" then
    .error { errorCode := -1,
             info := some ("websocketMessage should have command \x27auth_start\x27, not \x27" ++
               m.command ++ "\x27") }
  else
    match m.data.lookup "id" with
    | none => .error { errorCode := 0, info := some "No data field \x27id\x27" }
    | some (.num v) =>
      if v < 0 ∨ v.den ≠ 1 then
        .error { errorCode := 0, info := some "invalid id: must be a non-negative integer" }
      else
        .ok { command := "auth_start", targetID := v.num.toNat }
    | some g =>
      .error { errorCode := 0, info := some ("invalid id: unsupported type " ++ goTypeName g) }

/-- `websocketAuthValidateMessage` (part_010). -/
structure websocketAuthValidateMessage where
  command : String
  signature : String
deriving DecidableEq

/-- `toWebsocketAuthValidateMessage` (part_010). -/
def toWebsocketAuthValidateMessage (m : websocketMessage) :
    Except websocketErrorMessage websocketAuthValidateMessage :=
  if m.command ≠ "auth_validate" then
    .error { errorCode := -1,
             info := some ("websocketMessage should have command \x27auth_validate\x27, not \x27" ++
               m.command ++ "\x27") }
  else
    match m.data.lookup "signature" with
    | none => .error { errorCode := 0, info := some "No data field \x27signature\x27" }
    | some (.str v) => .ok { command := "auth_validate", signature := v }
    | some g =>
      .error { errorCode := 0, info := some ("invalid signature: unsupported type " ++ goTypeName g) }

/-- `sessionVoteMessage` (part_011). -/
structure sessionVoteMessage where
  command : String
  vote : Nat
deriving DecidableEq

/-- `toSessionVoteMessage` (part_011).  The Go test
`v < 1 || v > 5 || v != math.Trunc(v)` is rendered on rationals as
`v < 1 ∨ 5 < v ∨ v.den ≠ 1`. -/
def toSessionVoteMessage (m : websocketMessage) :
    Except websocketErrorMessage sessionVoteMessage :=
  if m.command ≠ "session_vote" then
    .error { errorCode := -1,
             info := some ("sessionVoteMessage should have command \x27session_vote\x27, not \x27" ++
               m.command ++ "\x27") }
  else
    match m.data.lookup "vote" with
    | none => .error { errorCode := 0, info := some "No data field \x27vote\x27" }
    | some (.num v) =>
      if v < 1 ∨ 5 < v ∨ v.den ≠ 1 then
        .error { errorCode := 0,
                 info := some "Invalid vote: must be a non-negative integer between 1 and 5 (inclusive)" }
      else
        .ok { command := "session_vote", vote := v.num.toNat }
    | some g =>
      .error { errorCode := 0, info := some ("Invalid vote: unsupported type " ++ goTypeName g) }

/-- `triggersRegistrationFlow` (ws_registration.go). -/
def triggersRegistrationFlow (m : websocketMessage) : Bool :=
  ["reg_start"].any (fun v => v == m.command)

/-- `triggersAuthenticationFlow` (part_010). -/
def triggersAuthenticationFlow (m : websocketMessage) : Bool :=
  ["auth_start", "auth_validate"].any (fun v => v == m.command)

/-- `triggersSessionFlow` (part_011). -/
def triggersSessionFlow (m : websocketMessage) : Bool :=
  ["session_vote"].any (fun v => v == m.command)

/-- One frame written out: `(target connection id, frame)`.  `sendMessage`
appends to this list. -/
abbrev outFrames := List (Nat × frame)

/-- How one flow invocation ends.  `normal` models a Go `return nil`;
`errReturn` models a non-nil `error` result, on which the read loop
breaks and closes the connection; `fatal` models an unrecoverable Go
runtime error (such as unlocking a mutex that is not locked), which
aborts the whole process on the spot — nothing after it runs. -/
inductive flowExit where
  | normal
  | errReturn (msg : String)
  | fatal (msg : String)
deriving DecidableEq

/-- `registrationFlow` (ws_registration.go, lines 42-73).  The draw
`rand.Intn(9000) + 1000` is made explicit: `randPin` is the random
source and `randPin % 9000` is the value `rand.Intn(9000)` yields.
Returns the updated hub, the frames sent, and the non-nil `error`
result when there is one. -/
def registrationFlow (h : WebsocketHandler) (c : websocketConnection) (randPin : Nat)
    (message : websocketMessage) : WebsocketHandler × outFrames × flowExit :=
  if message.command = "reg_start" then
    if c.state ≠ 0 then
      let errMsg := "Can not start registration in current state " ++ toString c.state ++
        ", only state 0 is allowed"
      (h, [(c.connectionID, .err { errorCode := 0, info := some errMsg })], .normal)
    else
      let pin := randPin % 9000 + 1000
      let c := { c with state := 1, stateFlow := .registration pin }
      let h := setConn h c
      let h := { h with registrationPins := mapInsert h.registrationPins pin c.connectionID }
      (h, [(c.connectionID, .msg { command := "reg_pin", data := [("pin", .num pin)] })], .normal)
  else (h, [], .normal)

/-- `authenticationFlow` (part_010, lines 112-267).  External effects are
explicit arguments: `mac key msg` is `HMAC_SHA256` (crypto/hmac with
sha256, keyed by `device.Token`), `nonceGen` is the result of
`generateNonce()` (`none` = the error branch), `deviceFound` says
whether the `auth_start` device lookup succeeds, and `now` is
`time.Now()`. -/
def authenticationFlow (mac : String → String → List Nat) (h : WebsocketHandler)
    (c : websocketConnection) (now : Nat) (nonceGen : Option String)
    (message : websocketMessage) : WebsocketHandler × outFrames × flowExit :=
  if message.command = "auth_start" then
    if c.state ≠ 0 then
      let errMsg := "Can not start authentication in current state " ++ toString c.state ++
        ", only state 0 is allowed"
      (h, [(c.connectionID, .err { errorCode := 0, info := some errMsg })], .normal)
    else
      match toWebsocketAuthStartMessage message with
      | .error parseErr => (h, [(c.connectionID, .err parseErr)], .normal)
      | .ok pm =>
        let c := { c with state := 2 }
        let h := setConn h c
        match db.findDevice h.db pm.targetID with
        | none =>
          (h, [(c.connectionID, .err { errorCode := -1, info := some "record not found" })], .normal)
        | some _ =>
          match nonceGen with
          | none =>
            let errMsg := "nonce generation failed"
            (h, [(c.connectionID, .err { errorCode := -1, info := some errMsg })], .normal)
          | some nonce =>
            let fd : authenticationFlowData :=
              { startedAt := now, flowTimeout := 30, targetID := pm.targetID, nonce := nonce }
            let c := { c with stateFlow := .auth fd }
            let h := setConn h c
            let reply : websocketMessage := { command := "auth_nonce", data := [("nonce", .str nonce)] }
            (h, [(c.connectionID, .msg reply)], .normal)
  else if message.command = "auth_validate" then
    if c.state ≠ 2 then
      let errMsg := "Can not validate authentication in current state " ++ toString c.state ++
        ", only state 2 is allowed"
      (h, [(c.connectionID, .err { errorCode := 0, info := some errMsg })], .normal)
    else
      match toWebsocketAuthValidateMessage message with
      | .error parseErr => (h, [(c.connectionID, .err parseErr)], .normal)
      | .ok pm =>
        match c.stateFlow with
        | .auth flowData =>
          match db.findDevice h.db flowData.targetID with
          | none =>
            let errMsg := "Could not retrieve device " ++ toString flowData.targetID ++
              " from database"
            let c := { c with state := 0, stateFlow := .nofl }
            let h := setConn h c
            (h, [(c.connectionID, .err { errorCode := -1, info := some errMsg })], .normal)
          | some device =>
            match hexDecode pm.signature with
            | none =>
              let errMsg := "Invalid signature encoding."
              let c := { c with state := 0, stateFlow := .nofl }
              let h := setConn h c
              (h, [(c.connectionID, .err { errorCode := 3, info := some errMsg })], .normal)
            | some decodedSignature =>
              let expectedMAC := mac device.token flowData.nonce
              if decodedSignature ≠ expectedMAC then
                let errMsg := "Invalid signature."
                let c := { c with state := 0, stateFlow := .nofl }
                let h := setConn h c
                (h, [(c.connectionID, .err { errorCode := 3, info := some errMsg })], .normal)
              else
                let c :=
                  { c with state := 3, stateFlow := .nofl, deviceID := some flowData.targetID }
                let h := setConn h c
                -- Kick old device: the presence test is `!= 0` on the
                -- zero-value map read, exactly as in the source.
                let oldID := goMapGet h.connectedDevices flowData.targetID
                let kickMsg := "Logged in at other place. Only one connection allowed per device."
                let (h, kickOut) :=
                  if oldID ≠ 0 then
                    match h.connections.lookup oldID with
                    | some oldConn =>
                      (closeConnection h oldConn,
                       ([(oldID, frame.err { errorCode := 4, info := some kickMsg })] : outFrames))
                    | none => (h, [])  -- source would dereference nil here; not reached in modelled runs
                  else (h, [])
                let cd := mapInsert h.connectedDevices flowData.targetID c.connectionID
                let h := { h with connectedDevices := cd }
                -- part_010:259 then executes `conn.handler.mu.Unlock()`, a
                -- write-unlock of the hub RWMutex that this path never
                -- locked: Go raises the unrecoverable runtime error
                -- `sync: Unlock of unlocked RWMutex` and the process dies
                -- here, before the `auth_ok` send on line 261 can run.
                (h, kickOut, .fatal "sync: Unlock of unlocked RWMutex")
        | _ =>
          let errMsg := "Fatal: Invalid stateFlow type, not authenticationFlowData"
          let h := closeConnection h c
          (h, [(c.connectionID, .err { errorCode := -1, info := some errMsg })], .errReturn errMsg)
  else (h, [], .normal)

/-- `db` effect of one accepted vote (part_011, lines 93-102): the three
`UpdateColumn` statements — increment `A{vote}_count`, set
`first_anwser_time` when it is still null, set `last_anwser_time`. -/
def applySessionVote (d : db.DB) (sessionID vote now : Nat) : db.DB :=
  { d with sessions := d.sessions.map (fun s =>
      if s.id = sessionID then
        let s :=
          match vote with
          | 1 => { s with A1_count := s.A1_count + 1 }
          | 2 => { s with A2_count := s.A2_count + 1 }
          | 3 => { s with A3_count := s.A3_count + 1 }
          | 4 => { s with A4_count := s.A4_count + 1 }
          | 5 => { s with A5_count := s.A5_count + 1 }
          | _ => s
        let s := { s with firstAnwserTime :=
          match s.firstAnwserTime with
          | none => some now
          | some t => some t }
        { s with lastAnwserTime := some now }
      else s) }

/-- `sessionFlow` (part_011, lines 64-109). -/
def sessionFlow (h : WebsocketHandler) (c : websocketConnection) (now : Nat)
    (message : websocketMessage) : WebsocketHandler × outFrames × flowExit :=
  if message.command = "session_vote" then
    if c.state ≠ 4 then
      let errMsg := "Can not vote while not in session. current state " ++ toString c.state ++
        ", only state 4 is allowed"
      (h, [(c.connectionID, .err { errorCode := 0, info := some errMsg })], .normal)
    else
      match toSessionVoteMessage message with
      | .error parseErr => (h, [(c.connectionID, .err parseErr)], .normal)
      | .ok pm =>
        match c.stateFlow with
        | .session flowData =>
          ({ h with db := applySessionVote h.db flowData.sessionID pm.vote now }, [], .normal)
        | _ =>
          let errMsg := "Fatal: Invalid stateFlow type, not sessionFlowData"
          let h := closeConnection h c
          (h, [(c.connectionID, .err { errorCode := -1, info := some errMsg })], .errReturn errMsg)
  else
    (h, [], .errReturn ("Invalid command \x27" ++ message.command ++ "\x27 reached sessionFLow"))

/-- The per-frame inputs of one read-loop iteration that come from the
environment: the wall clock, the `rand` draw used by `reg_start`, the
`generateNonce()` result used by `auth_start`, and the decoded frame. -/
structure inboundInput where
  now : Nat
  randPin : Nat
  nonceGen : Option String
  message : websocketMessage
deriving DecidableEq

/-- One iteration of the read loop of `InitialiseWebsocket`
(session.go, lines 409-479), after a frame for connection `connID` has
been read and JSON-decoded: refresh `latestMessage`, refresh the bound
device's `LastSeen`, then dispatch on the command exactly as the chain
of `if`/`else if` does.  The third component is the non-nil `error`
a flow returned, which makes the loop `break`. -/
def readLoopStep (mac : String → String → List Nat) (h : WebsocketHandler) (connID : Nat)
    (inp : inboundInput) : WebsocketHandler × outFrames × flowExit :=
  match h.connections.lookup connID with
  | none => (h, [], .errReturn "connection is gone")
  | some conn =>
    let conn := { conn with latestMessage := inp.now }
    let h := setConn h conn
    let h :=
      match conn.deviceID with
      | some d => { h with db := db.updateDeviceLastSeen h.db d inp.now }
      | none => h
    if inp.message.command = "" then
      let errMsg := "A command (\x27c\x27) is required"
      (h, [(connID, .err { errorCode := 0, info := some errMsg })], .normal)
    else if inp.message.command = "ping" then
      (h, [(connID, .msg { command := "pong", data := [] })], .normal)
    else if inp.message.command = "pong" then
      let conn := { conn with pongsReceived := conn.pongsReceived + 1 }
      (setConn h conn, [], .normal)
    else if triggersRegistrationFlow inp.message then
      registrationFlow h conn inp.randPin inp.message
    else if triggersAuthenticationFlow inp.message then
      authenticationFlow mac h conn inp.now inp.nonceGen inp.message
    else if triggersSessionFlow inp.message then
      sessionFlow h conn inp.now inp.message
    else
      let errMsg := "Invalid command \x27" ++ inp.message.command ++ "\x27"
      (h, [(connID, .err { errorCode := 0, info := some errMsg })], .normal)

/-- Iterated read loop: process the frames in order, stopping (as the
Go `for` loop does on a flow error) when a step returns a non-nil
error. -/
def processFrames (mac : String → String → List Nat) (h : WebsocketHandler) (connID : Nat) :
    List inboundInput → WebsocketHandler × outFrames
  | [] => (h, [])
  | inp :: rest =>
    let step := readLoopStep mac h connID inp
    match step.2.2 with
    | .normal =>
      let next := processFrames mac step.1 connID rest
      (next.1, step.2.1 ++ next.2)
    | _ => (step.1, step.2.1)

/-- `(h *WebsocketHandler) stopSession` (part_011, lines 181-208):
deliver `session_stop` to the device of the session, if it still has a
live connection; return the `error` result. -/
def stopSessionWS (h : WebsocketHandler) (session : db.Session) :
    WebsocketHandler × outFrames × flowExit :=
  match h.connectedDevices.lookup session.deviceID with
  | none => (h, [], .errReturn "Device is currently connected, can not start session")
  | some connID =>
    match h.connections.lookup connID with
    | none =>
      let h := { h with connectedDevices := mapDelete h.connectedDevices session.deviceID }
      (h, [], .errReturn ("Connection " ++ toString connID ++ " for device " ++
        toString session.deviceID ++ " does not exist"))
    | some conn =>
      let conn := { conn with state := 3, stateFlow := .nofl }
      let h := setConn h conn
      (h, [(connID, .msg { command := "session_stop", data := [] })], .normal)

/-- `SessionManager` (user.go): the two auxiliary indices. -/
structure SessionManager where
  sessionsByUser : List (Nat × Nat)
  sessionsByDevice : List (Nat × Nat)
deriving DecidableEq

/-- `(sm *SessionManager) removeSession` (user.go). -/
def removeSession (sm : SessionManager) (session : db.Session) : SessionManager :=
  { sessionsByUser := mapDelete sm.sessionsByUser session.userID,
    sessionsByDevice := mapDelete sm.sessionsByDevice session.deviceID }

/-- `(h *SessionHandler) StopSession` (user.go, lines 906-931).  In
order: set the row's `stopped_at` to now, re-read the row, null the
device's `active_session_id` (a failure there is only logged), drop the
coordinator indices, and call the websocket-side `stopSession`, whose
`error` result is discarded.  The last component is the HTTP status the
admin caller is sent when the handler bails out early (`none` = no
error response; the caller proceeds with the returned session). -/
def StopSession (h : WebsocketHandler) (sm : SessionManager) (now : Nat) (sessionID : Nat) :
    WebsocketHandler × SessionManager × Option db.Session × outFrames × Option Nat :=
  let d0 := { h.db with sessions := h.db.sessions.map (fun s =>
    if s.id = sessionID then { s with stoppedAt := some now } else s) }
  let h := { h with db := d0 }
  match db.findSession h.db sessionID with
  | none => (h, sm, none, [], some 500)
  | some session =>
    let d1 := { h.db with devices := h.db.devices.map (fun dev =>
      if dev.id = session.deviceID then { dev with activeSessionID := none } else dev) }
    let h := { h with db := d1 }
    let sm := removeSession sm session
    let stopped := stopSessionWS h session
    (stopped.1, sm, some session, stopped.2.1, none)

/-- Whether a frame is an error frame. -/
def isErrFrame : frame → Bool
  | .err _ => true
  | .msg _ => false

/-- The vote a frame casts, in the words of the spec (section 4.3.3 and
claim C4): a frame is accepted exactly when it is a `session_vote`
whose `d.vote` is a JSON number equal to an integer in `[1,5]`; the
cast value is that integer. -/
def specAcceptedVote (m : websocketMessage) : Option Nat :=
  if m.command = "session_vote" then
    match m.data.lookup "vote" with
    | some (.num v) => if 1 ≤ v ∧ v ≤ 5 ∧ v.den = 1 then some v.num.toNat else none
    | _ => none
  else none

/-- Number of frames in a run that are accepted votes of value `v`. -/
def countAcceptedVotes (v : Nat) (inputs : List inboundInput) : Nat :=
  inputs.countP (fun i => specAcceptedVote i.message == some v)

/-- Number of frames in a run that are accepted votes of any value. -/
def countAllAcceptedVotes (inputs : List inboundInput) : Nat :=
  inputs.countP (fun i => (specAcceptedVote i.message).isSome)

/-- Shorthand for the `auth_start` frame naming device `id`. -/
def authStartMessage (id : Nat) : websocketMessage :=
  { command := "auth_start", data := [("id", .num id)] }

/-- Shorthand for the `auth_validate` frame carrying `signature`. -/
def authValidateMessage (sig : String) : websocketMessage :=
  { command := "auth_validate", data := [("signature", .str sig)] }

/-- Shorthand for the `session_vote` frame carrying the JSON number `v`. -/
def sessionVoteMessage' (v : ℚ) : websocketMessage :=
  { command := "session_vote", data := [("vote", .num v)] }

/-- A fixed MAC oracle for concrete runs: every (key, message) pair maps
to the byte string `[171, 205]` (hex `abcd`). -/
def macFixed : String → String → List Nat := fun _ _ => [171, 205]

/-- Store holding the single enrolled device 7 with secret `secret`. -/
def dbDevice7 : db.DB :=
  { devices := [{ id := 7, token := "secret", lastSeen := none, activeSessionID := none }],
    sessions := [] }

/-- Concrete run for claim C2: connection 0 (the first connection the
hub hands out, id 0) connects, starts authentication for device 7
(`run2a`) and then sends the correctly signed `auth_validate`
(`run2b`). -/
def run2a : WebsocketHandler × outFrames × flowExit :=
  readLoopStep macFixed (addConnection (NewWebsocketHandler dbDevice7) 1).1 0
    { now := 2, randPin := 0, nonceGen := some "N", message := authStartMessage 7 }

def run2b : WebsocketHandler × outFrames × flowExit :=
  readLoopStep macFixed run2a.1 0
    { now := 3, randPin := 0, nonceGen := none, message := authValidateMessage "abcd" }

/-- Concrete state for claim C5: a connection that entered
AUTHENTICATING at time 0 (flow timeout 30) and is still there. -/
def conn5 : websocketConnection :=
  { connectionID := 0, deviceID := none, state := 2,
    stateFlow := .auth { startedAt := 0, flowTimeout := 30, targetID := 7, nonce := "N" },
    connectedAt := 0, latestMessage := 0, pingsSent := 0, pongsReceived := 0 }

def handler5 : WebsocketHandler :=
  { connections := [(0, conn5)], nextID := 1, connectedDevices := [],
    registrationPins := [], db := dbDevice7 }

/-- Claim C5 run: the correctly signed `auth_validate` arrives at
wall-clock time 100, a hundred seconds after the flow started. -/
def run5 : WebsocketHandler × outFrames × flowExit :=
  readLoopStep macFixed handler5 0
    { now := 100, randPin := 0, nonceGen := none, message := authValidateMessage "abcd" }

/-- Concrete run for claim C1: the AUTHENTICATING connection `conn5`
receives the correctly signed `auth_validate` at time 50. -/
def run1 : WebsocketHandler × outFrames × flowExit :=
  readLoopStep macFixed handler5 0
    { now := 50, randPin := 0, nonceGen := none, message := authValidateMessage "abcd" }

/-- The same connection receives a wrong signature instead: hex `ffff`
decodes to `[255, 255]`, which differs from the MAC `[171, 205]`. -/
def run1bad : WebsocketHandler × outFrames × flowExit :=
  readLoopStep macFixed handler5 0
    { now := 50, randPin := 0, nonceGen := none, message := authValidateMessage "ffff" }

/-- Concrete state for claim C6: an idle authenticated connection whose
last frame arrived at time 5. -/
def conn6 : websocketConnection :=
  { connectionID := 0, deviceID := none, state := 0, stateFlow := .nofl,
    connectedAt := 0, latestMessage := 5, pingsSent := 3, pongsReceived := 1 }

def handler6 : WebsocketHandler :=
  { connections := [(0, conn6)], nextID := 1, connectedDevices := [],
    registrationPins := [], db := { devices := [], sessions := [] } }

/-- Claim C6 run: an inbound `pong` frame arrives at time 17. -/
def run6 : WebsocketHandler × outFrames × flowExit :=
  readLoopStep macFixed handler6 0
    { now := 17, randPin := 0, nonceGen := none, message := { command := "pong", data := [] } }

/-- Concrete state for claim C8: connection 0 is REGISTERING and holds
pending pin 1234; connection 1 is in NONE. -/
def conn8a : websocketConnection :=
  { connectionID := 0, deviceID := none, state := 1, stateFlow := .registration 1234,
    connectedAt := 0, latestMessage := 0, pingsSent := 0, pongsReceived := 0 }

def conn8b : websocketConnection :=
  { connectionID := 1, deviceID := none, state := 0, stateFlow := .nofl,
    connectedAt := 0, latestMessage := 0, pingsSent := 0, pongsReceived := 0 }

def handler8 : WebsocketHandler :=
  { connections := [(0, conn8a), (1, conn8b)], nextID := 2, connectedDevices := [],
    registrationPins := [(1234, 0)], db := { devices := [], sessions := [] } }

/-- Claim C8 run: connection 1 sends `reg_start` and the random draw
collides with the pending pin 1234 (`234 % 9000 + 1000 = 1234`). -/
def run8 : WebsocketHandler × outFrames × flowExit :=
  readLoopStep macFixed handler8 1
    { now := 9, randPin := 234, nonceGen := none, message := { command := "reg_start", data := [] } }

/-- The message/state combinations claim C3 calls illegal: `reg_start`
or `auth_start` outside NONE, `auth_validate` outside AUTHENTICATING,
`session_vote` outside IN_SESSION, and any command outside the
protocol's vocabulary, in any state. -/
def specIllegalCommand (cmd : String) (st : Nat) : Prop :=
  ((cmd = "reg_start" ∨ cmd = "auth_start") ∧ st ≠ 0) ∨
  (cmd = "auth_validate" ∧ st ≠ 2) ∨
  (cmd = "session_vote" ∧ st ≠ 4) ∨
  cmd ∉ ["", "ping", "pong", "reg_start", "auth_start", "auth_validate", "session_vote"]

/-- The bare `pong` frame. -/
def pongMessage : websocketMessage := { command := "pong", data := [] }

/-- The bare `reg_start` frame. -/
def regStartMessage : websocketMessage := { command := "reg_start", data := [] }

/-- The `reg_pin` reply carrying `pin`. -/
def regPinMessage (pin : Nat) : websocketMessage :=
  { command := "reg_pin", data := [("pin", .num pin)] }

/-- The device row of `dbDevice7`. -/
def device7 : db.Device :=
  { id := 7, token := "secret", lastSeen := none, activeSessionID := none }

/-- The authentication flow-data `conn5` carries. -/
def fd5 : authenticationFlowData :=
  { startedAt := 0, flowTimeout := 30, targetID := 7, nonce := "N" }

/-- A fresh voting-session row (id 42, device 7) with zero counters. -/
def sess42 : db.Session :=
  { id := 42, userID := 1, questionID := 1, deviceID := 7, date := 0, firstAnwserTime := none,
    lastAnwserTime := none, stoppedAt := none, A1_count := 0, A2_count := 0, A3_count := 0,
    A4_count := 0, A5_count := 0 }

/-- A connection in IN_SESSION for session 42. -/
def conn4 : websocketConnection :=
  { connectionID := 0, deviceID := some 7, state := 4,
    stateFlow := .session { sessionID := 42, started := 0 }, connectedAt := 0,
    latestMessage := 0, pingsSent := 0, pongsReceived := 0 }

def handler4 : WebsocketHandler :=
  { connections := [(0, conn4)], nextID := 1, connectedDevices := [(7, 0)],
    registrationPins := [], db := { devices := [device7], sessions := [sess42] } }

/-- A concrete run of frames for claim C4: two votes of 3, a bogus
command, one vote of 5, and a rejected non-integral vote 5/2. -/
def votes4 : List inboundInput :=
  [⟨1, 0, none, sessionVoteMessage' 3⟩, ⟨2, 0, none, sessionVoteMessage' 3⟩,
   ⟨3, 0, none, { command := "bogus", data := [] }⟩, ⟨4, 0, none, sessionVoteMessage' 5⟩,
   ⟨5, 0, none, sessionVoteMessage' (5 / 2)⟩]

/-- C7: the error-frame struct tags `ErrorCode int` with `e,omitempty`,
so `json.Marshal` drops the `e` field whenever the code is the zero
value `0` — exactly the bad-request / invalid-state code the spec
documents as stable on the wire.  A serialized bad-request reply
carries no `e` at all, diverging from the documented shape
`{ "e": <integer code>, "info": <string|null> }`; non-zero codes such
as 3 are serialized with `e` present. -/
theorem error_code_zero_omitted_on_wire :
    marshalWebsocketErrorMessage { errorCode := 0, info := some "A command (\x27c\x27) is required" } =
      "\x7b\x22info\x22:\x22A command (\x27c\x27) is required\x22\x7d" ∧
    marshalWebsocketErrorMessage { errorCode := 0, info := some "A command (\x27c\x27) is required" } ≠
      specErrorFrameJSON { errorCode := 0, info := some "A command (\x27c\x27) is required" } ∧
    marshalWebsocketErrorMessage { errorCode := 3, info := some "Invalid signature." } =
      "\x7b\x22e\x22:3,\x22info\x22:\x22Invalid signature.\x22\x7d" := by
  refine ⟨rfl, ?_, rfl⟩
  decide

/-- C2: in the very first run the claim's premise could arise from —
connection 0 completing a successful `auth_validate` for device 7 —
the code installs `connected_devices[7] = 0` and binds the connection
(state 3, device 7), and then dies: part_010:259 write-unlocks the hub
RWMutex this path never locked, an unrecoverable Go fatal raised
before `auth_ok` is sent.  So no device ever has a live authenticated
holder in a running process, a second connection can never
authenticate, and the claimed kick-then-install discipline never
executes.  (Even disregarding the fatal, the kick guard
`connectedDevices[id] != 0` could not kick this holder, whose
connection id is the map's zero value 0.) -/
theorem auth_success_fatal_precludes_second_holder :
    run2b.1.connectedDevices.lookup 7 = some 0 ∧
    (run2b.1.connections.lookup 0).map (fun c => (c.state, c.deviceID)) = some (3, some 7) ∧
    run2b.2.1 = [] ∧
    run2b.2.2 = .fatal "sync: Unlock of unlocked RWMutex" ∧
    goMapGet run2b.1.connectedDevices 7 = 0 := by
  decide

/-- C5 counterexample: a connection whose authentication flow started at
time 0 is still in AUTHENTICATING at time 100 — seventy seconds past
the recorded 30-second flow timeout — and the `auth_validate` arriving
then is not rejected for lateness and the connection is not reset to
NONE: no frame at all is sent to it (no error, and no `auth_ok`
either), its state is set to 3 along the success path, and the run
ends in the deterministic part_010:259 fatal, not in the reset the
claim requires. -/
theorem auth_timeout_not_enforced_cex :
    conn5.state = 2 ∧
    conn5.stateFlow =
      .auth { startedAt := 0, flowTimeout := 30, targetID := 7, nonce := "N" } ∧
    (run5.1.connections.lookup 0).map websocketConnection.state = some 3 ∧
    (run5.1.connections.lookup 0).map websocketConnection.state ≠ some 0 ∧
    run5.2.1 = [] ∧
    run5.2.2 = .fatal "sync: Unlock of unlocked RWMutex" := by
  decide

/-- C6 counterexample: an inbound `pong` does not only increment
`pongsReceived` — the read loop stamps `latestMessage := now` on every
frame before dispatching, so the silence reference the heartbeat loop
compares against `delay`/`kill_delay` is reset by a `pong` exactly as
by a user frame.  Here it moves from 5 to 17. -/
theorem pong_resets_latest_message_cex :
    conn6.latestMessage = 5 ∧
    (run6.1.connections.lookup 0).map websocketConnection.pongsReceived = some 2 ∧
    (run6.1.connections.lookup 0).map websocketConnection.latestMessage = some 17 ∧
    (run6.1.connections.lookup 0).map websocketConnection.latestMessage ≠ some 5 := by
  decide

/-- C8 counterexample: `reg_start` draws one pin with no collision
check.  With pin 1234 already pending for connection 0, the colliding
draw for connection 1 is installed anyway: the `pending_pins` entry for
1234 silently flips from connection 0 to connection 1, the pin is
issued by `reg_pin`, and no error frame (in particular no internal
error) is produced — there is no retry. -/
theorem reg_pin_collision_overwrites_cex :
    handler8.registrationPins.lookup 1234 = some 0 ∧
    run8.1.registrationPins.lookup 1234 = some 1 ∧
    (1, frame.msg { command := "reg_pin", data := [("pin", .num 1234)] }) ∈ run8.2.1 ∧
    (∀ f ∈ run8.2.1, isErrFrame f.2 = false) := by
  decide

/-- Looking a key up is unaffected by filtering, when the filter keeps
every pair with that key. -/
theorem lookup_filter {β : Type} (f : Nat × β → Bool) (l : List (Nat × β)) (k : Nat)
    (hf : ∀ b, f (k, b) = true) :
    List.lookup k (l.filter f) = List.lookup k l := by
  induction l with
  | nil => rfl
  | cons p rest ih =>
    rcases p with ⟨a, b⟩
    by_cases hk : k = a
    · subst hk
      simp [List.filter_cons, hf b, List.lookup]
    · have hb : (k == a) = false := beq_eq_false_iff_ne.mpr hk
      cases hfa : f (a, b) <;> simp [List.filter_cons, hfa, List.lookup, hb, ih]

/-- After a write-through, the hub resolves the connection id to the
written value. -/
theorem lookup_setConn_self (h : WebsocketHandler) (c : websocketConnection) :
    (setConn h c).connections.lookup c.connectionID = some c := by
  simp [setConn, List.lookup]

/-- A write-through leaves every other connection id unchanged. -/
theorem lookup_setConn_ne (h : WebsocketHandler) (c : websocketConnection) (k : Nat)
    (hk : k ≠ c.connectionID) :
    (setConn h c).connections.lookup k = h.connections.lookup k := by
  have hb : (k == c.connectionID) = false := beq_eq_false_iff_ne.mpr hk
  simp only [setConn, List.lookup, hb]
  exact lookup_filter _ _ _ (fun b => by simp [hk])

/-- Closing one connection leaves every other connection id resolvable
as before. -/
theorem closeConnection_lookup_ne (h : WebsocketHandler) (c : websocketConnection) (k : Nat)
    (hk : k ≠ c.connectionID) :
    (closeConnection h c).connections.lookup k = h.connections.lookup k := by
  have key : ∀ (hh : WebsocketHandler),
      hh.connections = h.connections.filter (fun p => p.1 ≠ c.connectionID) →
      hh.connections.lookup k = h.connections.lookup k := by
    intro hh hhh
    rw [hhh]
    exact lookup_filter _ _ _ (fun b => by simp [hk])
  unfold closeConnection
  cases c.deviceID <;> cases c.stateFlow <;> exact key _ rfl

theorem closeConnection_db (h : WebsocketHandler) (c : websocketConnection) :
    (closeConnection h c).db = h.db := by
  unfold closeConnection
  cases c.deviceID <;> cases c.stateFlow <;> rfl

theorem setConn_connectedDevices (h : WebsocketHandler) (c : websocketConnection) :
    (setConn h c).connectedDevices = h.connectedDevices := rfl

theorem setConn_db (h : WebsocketHandler) (c : websocketConnection) :
    (setConn h c).db = h.db := rfl

theorem goMapGet_lookup_of_ne_zero {m : List (Nat × Nat)} {k : Nat}
    (h0 : goMapGet m k ≠ 0) : m.lookup k = some (goMapGet m k) := by
  unfold goMapGet at h0 ⊢
  cases hlk : m.lookup k with
  | none => rw [hlk] at h0; simp at h0
  | some x => simp

theorem parse_authValidate (sig : String) :
    toWebsocketAuthValidateMessage (authValidateMessage sig) =
      .ok { command := "auth_validate", signature := sig } := rfl

/-- `auth_validate` in AUTHENTICATING with the correct signature: the
connection is set to AUTHENTICATED bound to the target device and the
hub entry is installed, but the invocation ends in the part_010:259
fatal (unlock of the never-locked hub RWMutex) — no frame at all is
sent to this connection, in particular no `auth_ok`. -/
theorem authValidate_success (mac : String → String → List Nat) (h : WebsocketHandler)
    (conn : websocketConnection) (fd : authenticationFlowData) (device : db.Device)
    (now : Nat) (ng : Option String) (sig : String)
    (hst : conn.state = 2) (hfl : conn.stateFlow = .auth fd)
    (hfind : db.findDevice h.db fd.targetID = some device)
    (hsig : hexDecode sig = some (mac device.token fd.nonce))
    (hwf : ∀ c', h.connections.lookup (goMapGet h.connectedDevices fd.targetID) = some c' →
      c'.connectionID = goMapGet h.connectedDevices fd.targetID)
    (hns : h.connectedDevices.lookup fd.targetID ≠ some conn.connectionID) :
    (authenticationFlow mac h conn now ng (authValidateMessage sig)).1.connections.lookup
        conn.connectionID =
      some { conn with state := 3, stateFlow := .nofl, deviceID := some fd.targetID } ∧
    (∀ f ∈ (authenticationFlow mac h conn now ng (authValidateMessage sig)).2.1,
      f.1 ≠ conn.connectionID) ∧
    (authenticationFlow mac h conn now ng (authValidateMessage sig)).2.2 =
      .fatal "sync: Unlock of unlocked RWMutex" := by
  have hcmd : (authValidateMessage sig).command = "auth_validate" := rfl
  have hself := lookup_setConn_self h
    ({ conn with state := 3, stateFlow := .nofl, deviceID := some fd.targetID })
  unfold authenticationFlow
  rw [hcmd]
  simp only [String.reduceEq, if_false, if_true, reduceIte, parse_authValidate, hst, hfl, hfind]
  rw [hsig]
  simp only [ne_eq, not_true_eq_false, if_false, reduceIte, setConn_connectedDevices]
  by_cases h0 : goMapGet h.connectedDevices fd.targetID = 0
  · simp [h0]
    exact hself
  · have hoid := goMapGet_lookup_of_ne_zero h0
    have hne2 : goMapGet h.connectedDevices fd.targetID ≠ conn.connectionID := by
      intro he
      exact hns (by rw [hoid, he])
    have hlk2 := lookup_setConn_ne h
      ({ conn with state := 3, stateFlow := .nofl, deviceID := some fd.targetID })
      (goMapGet h.connectedDevices fd.targetID) hne2
    simp only [h0, if_true, reduceIte, hlk2]
    cases hold : h.connections.lookup (goMapGet h.connectedDevices fd.targetID) with
    | none =>
      simp [h0]
      exact hself
    | some oldConn =>
      have hoc := hwf oldConn hold
      have hkeep := closeConnection_lookup_ne
        (setConn h ({ conn with state := 3, stateFlow := .nofl, deviceID := some fd.targetID }))
        oldConn conn.connectionID (by rw [hoc]; exact fun he => hne2 he.symm)
      simp [h0, hkeep, hne2]
      exact hself

/-- C1: the claim's mismatch half is what the code does — a wrong or
undecodable signature resets the connection to NONE with flow-data
cleared and exactly one code-3 error frame (`run1bad`) — but its
success half is not: when the hex-decoded signature equals the HMAC of
the nonce under the stored secret (`run1`), the code sets state 3 and
installs `connected_devices[7]`, and then part_010:259 write-unlocks
the hub RWMutex that this path never locked, an unrecoverable Go fatal
raised before the `auth_ok` send on line 261 — no frame at all reaches
the connection, so `auth_ok` is never sent on a MAC match. -/
theorem auth_match_fatals_before_auth_ok :
    hexDecode "abcd" = some (macFixed "secret" "N") ∧
    (run1.1.connections.lookup 0).map (fun c => (c.state, c.deviceID)) = some (3, some 7) ∧
    run1.1.connectedDevices.lookup 7 = some 0 ∧
    run1.2.1 = [] ∧
    run1.2.2 = .fatal "sync: Unlock of unlocked RWMutex" ∧
    hexDecode "ffff" ≠ some (macFixed "secret" "N") ∧
    (run1bad.1.connections.lookup 0).map
      (fun c => (c.state, c.stateFlow)) = some (0, .nofl) ∧
    run1bad.2.1 = [(0, frame.err { errorCode := 3, info := some "Invalid signature." })] ∧
    run1bad.2.2 = .normal := by
  decide

/-- C5 (amended): the authentication flow-data records `started_at` and
a 30-second `flow_timeout`, but nothing enforces the bound — there is
no per-flow timer and `auth_validate` never reads the clock.  A
correctly signed `auth_validate` arriving at any wall-clock time, in
particular strictly beyond `started_at + flow_timeout`, is never
rejected for lateness and the connection is never reset to NONE: the
success path runs (state set to AUTHENTICATED, device installed), no
frame at all is sent to the connection, and the invocation ends in the
part_010:259 fatal. -/
theorem auth_validate_ignores_elapsed_time (mac : String → String → List Nat)
    (h : WebsocketHandler) (conn : websocketConnection) (fd : authenticationFlowData)
    (device : db.Device) (now : Nat) (ng : Option String) (sig : String)
    (hlate : fd.startedAt + fd.flowTimeout < now)
    (hst : conn.state = 2) (hfl : conn.stateFlow = .auth fd)
    (hfind : db.findDevice h.db fd.targetID = some device)
    (hsig : hexDecode sig = some (mac device.token fd.nonce))
    (hwf : ∀ c', h.connections.lookup (goMapGet h.connectedDevices fd.targetID) = some c' →
      c'.connectionID = goMapGet h.connectedDevices fd.targetID)
    (hns : h.connectedDevices.lookup fd.targetID ≠ some conn.connectionID) :
    ((authenticationFlow mac h conn now ng (authValidateMessage sig)).1.connections.lookup
        conn.connectionID).map websocketConnection.state = some 3 ∧
    ((authenticationFlow mac h conn now ng (authValidateMessage sig)).1.connections.lookup
        conn.connectionID).map websocketConnection.state ≠ some 0 ∧
    (∀ f ∈ (authenticationFlow mac h conn now ng (authValidateMessage sig)).2.1,
      f.1 ≠ conn.connectionID) ∧
    (authenticationFlow mac h conn now ng (authValidateMessage sig)).2.2 =
      .fatal "sync: Unlock of unlocked RWMutex" := by
  obtain ⟨h1, h2, h3⟩ := authValidate_success mac h conn fd device now ng sig
    hst hfl hfind hsig hwf hns
  rw [h1]
  exact ⟨rfl, by simp, h2, h3⟩

/-- C5 witness: at time 100, seventy seconds past the 30-second bound of
the flow `conn5` started at time 0, the valid signature is still not
rejected: the connection is not reset to NONE and the run ends in the
fatal, not in a lateness rejection. -/
theorem auth_validate_ignores_elapsed_time_witness :
    fd5.startedAt + fd5.flowTimeout < 100 ∧
    (((authenticationFlow macFixed handler5 conn5 100 none
        (authValidateMessage "abcd")).1.connections.lookup 0).map websocketConnection.state =
      some 3 ∧
    (((authenticationFlow macFixed handler5 conn5 100 none
        (authValidateMessage "abcd")).1.connections.lookup 0).map websocketConnection.state ≠
      some 0) ∧
    (∀ f ∈ (authenticationFlow macFixed handler5 conn5 100 none
        (authValidateMessage "abcd")).2.1, f.1 ≠ 0) ∧
    (authenticationFlow macFixed handler5 conn5 100 none (authValidateMessage "abcd")).2.2 =
      .fatal "sync: Unlock of unlocked RWMutex") :=
  ⟨by decide,
   auth_validate_ignores_elapsed_time macFixed handler5 conn5 fd5 device7 100 none "abcd"
    (by decide) rfl rfl rfl rfl
    (by
      intro c' hc
      have hc' : conn5 = c' := by simpa [goMapGet, handler5, List.lookup] using hc
      rw [← hc']
      rfl)
    (by decide)⟩

/-- C3: for every inbound command arriving in a state where it is not
legal — `reg_start` or `auth_start` outside NONE, `auth_validate`
outside AUTHENTICATING, `session_vote` outside IN_SESSION, and any
command outside the protocol vocabulary in any state — the read loop
replies with exactly one error frame of kind 0, does not break, and the
connection's state and flow-data are unchanged (only the
`latestMessage` stamp moves). -/
theorem illegal_command_error0_state_unchanged (mac : String → String → List Nat)
    (h : WebsocketHandler) (connID : Nat) (conn : websocketConnection)
    (now rp : Nat) (ng : Option String) (m : websocketMessage)
    (hl : h.connections.lookup connID = some conn) (hid : conn.connectionID = connID)
    (hill : specIllegalCommand m.command conn.state) :
    (∃ i, (readLoopStep mac h connID { now := now, randPin := rp, nonceGen := ng, message := m }).2.1 =
      [(connID, frame.err { errorCode := 0, info := some i })]) ∧
    (readLoopStep mac h connID
        { now := now, randPin := rp, nonceGen := ng, message := m }).1.connections.lookup connID =
      some { conn with latestMessage := now } ∧
    (readLoopStep mac h connID { now := now, randPin := rp, nonceGen := ng, message := m }).2.2 =
      flowExit.normal := by
  subst hid
  have hself : List.lookup conn.connectionID
      (setConn h { conn with latestMessage := now }).connections =
      some { conn with latestMessage := now } :=
    lookup_setConn_self h { conn with latestMessage := now }
  unfold readLoopStep
  rw [hl]
  rcases hill with ⟨hc | hc, hst⟩ | ⟨hc, hst⟩ | ⟨hc, hst⟩ | hc
  · cases hdev : conn.deviceID <;> rw [hdev] at hself <;>
      simp [hc, hdev, triggersRegistrationFlow, registrationFlow, hst, hself]
  · cases hdev : conn.deviceID <;> rw [hdev] at hself <;>
      simp [hc, hdev, triggersRegistrationFlow, triggersAuthenticationFlow, authenticationFlow,
        hst, hself]
  · cases hdev : conn.deviceID <;> rw [hdev] at hself <;>
      simp [hc, hdev, triggersRegistrationFlow, triggersAuthenticationFlow, authenticationFlow,
        hst, hself]
  · cases hdev : conn.deviceID <;> rw [hdev] at hself <;>
      simp [hc, hdev, triggersRegistrationFlow, triggersAuthenticationFlow, triggersSessionFlow,
        sessionFlow, hst, hself]
  · simp only [List.mem_cons, List.not_mem_nil, or_false, not_or] at hc
    obtain ⟨h1, h2, h3, h4, h5, h6, h7⟩ := hc
    have h2' : ¬("ping" = m.command) := fun he => h2 he.symm
    have h3' : ¬("pong" = m.command) := fun he => h3 he.symm
    have h4' : ¬("reg_start" = m.command) := fun he => h4 he.symm
    have h5' : ¬("auth_start" = m.command) := fun he => h5 he.symm
    have h6' : ¬("auth_validate" = m.command) := fun he => h6 he.symm
    have h7' : ¬("session_vote" = m.command) := fun he => h7 he.symm
    cases hdev : conn.deviceID <;> rw [hdev] at hself <;>
      simp [h1, h2, h3, h4', h5', h6', h7', hdev, triggersRegistrationFlow,
        triggersAuthenticationFlow, triggersSessionFlow, hself]


/-- C6 (amended): an inbound `pong` increments `pongsReceived` and,
like every inbound frame, also resets `latestMessage` to now — the read
loop stamps the silence reference before dispatching — while state and
flow-data are unchanged and nothing is sent back. -/
theorem pong_increments_and_refreshes_silence (mac : String → String → List Nat)
    (h : WebsocketHandler) (connID : Nat) (conn : websocketConnection)
    (now rp : Nat) (ng : Option String)
    (hl : h.connections.lookup connID = some conn) (hid : conn.connectionID = connID) :
    (readLoopStep mac h connID ⟨now, rp, ng, pongMessage⟩).1.connections.lookup connID =
      some { conn with latestMessage := now, pongsReceived := conn.pongsReceived + 1 } ∧
    (readLoopStep mac h connID ⟨now, rp, ng, pongMessage⟩).2.1 = [] ∧
    (readLoopStep mac h connID ⟨now, rp, ng, pongMessage⟩).2.2 = flowExit.normal := by
  subst hid
  obtain ⟨cid, dev, st, sfl, ca, lm, ps, pr⟩ := conn
  unfold readLoopStep
  rw [hl]
  cases dev with
  | none =>
    simp [pongMessage]
    exact lookup_setConn_self _ ⟨cid, none, st, sfl, ca, now, ps, pr + 1⟩
  | some d =>
    simp [pongMessage]
    exact lookup_setConn_self _ ⟨cid, some d, st, sfl, ca, now, ps, pr + 1⟩

/-- C8 (amended): `reg_start` in NONE draws a single random pin
`rand.Intn(9000) + 1000`, always in `[1000, 9999]`, installs
pin → connection-id into `registrationPins` unconditionally
(overwriting any previous binding of that pin), moves the connection to
REGISTERING with the pin as flow-data, and sends `reg_pin`; no
collision check, retry, or internal error exists. -/
theorem reg_start_single_draw (h : WebsocketHandler) (conn : websocketConnection)
    (randPin : Nat) (hst : conn.state = 0) :
    1000 ≤ randPin % 9000 + 1000 ∧ randPin % 9000 + 1000 ≤ 9999 ∧
    (registrationFlow h conn randPin regStartMessage).1.registrationPins.lookup
        (randPin % 9000 + 1000) = some conn.connectionID ∧
    (registrationFlow h conn randPin regStartMessage).1.connections.lookup conn.connectionID =
      some { conn with state := 1, stateFlow := .registration (randPin % 9000 + 1000) } ∧
    (registrationFlow h conn randPin regStartMessage).2.1 =
      [(conn.connectionID, frame.msg (regPinMessage (randPin % 9000 + 1000)))] := by
  obtain ⟨cid, dev, st, sfl, ca, lm, ps, pr⟩ := conn
  simp only at hst
  subst hst
  refine ⟨by omega, by omega, ?_⟩
  unfold registrationFlow
  simp [mapInsert, List.lookup, regStartMessage, regPinMessage, setConn]

theorem lookup_filter_none {β : Type} (f : Nat × β → Bool) (l : List (Nat × β)) (k : Nat)
    (hf : ∀ b, f (k, b) = false) :
    List.lookup k (l.filter f) = none := by
  induction l with
  | nil => rfl
  | cons p rest ih =>
    rcases p with ⟨a, b⟩
    by_cases hk : k = a
    · subst hk
      simp [List.filter_cons, hf b, ih]
    · have hb : (k == a) = false := beq_eq_false_iff_ne.mpr hk
      cases hfa : f (a, b) <;> simp [List.filter_cons, hfa, List.lookup, hb, ih]

theorem closeConnection_lookup_self (h : WebsocketHandler) (c : websocketConnection) :
    (closeConnection h c).connections.lookup c.connectionID = none := by
  have key : ∀ (hh : WebsocketHandler),
      hh.connections = h.connections.filter (fun p => p.1 ≠ c.connectionID) →
      hh.connections.lookup c.connectionID = none := by
    intro hh hhh
    rw [hhh]
    exact lookup_filter_none _ _ _ (fun b => by simp)
  unfold closeConnection
  cases c.deviceID <;> cases c.stateFlow <;> exact key _ rfl

theorem parse_authStart (d : Nat) :
    toWebsocketAuthStartMessage (authStartMessage d) =
      .ok { command := "auth_start", targetID := d } := by
  unfold toWebsocketAuthStartMessage authStartMessage
  simp [List.lookup]

/-- C10: when `auth_start` in NONE names a device id the store cannot
retrieve (or nonce generation fails), the flow sends one internal-error
frame (code -1) but has already set the state to 2, so the connection
remains in AUTHENTICATING with its empty (`nil`) flow-data; a
subsequent `auth_validate` then hits the fatal invalid-flow-data
branch: one more internal-error frame, the connection is removed from
the hub (closed), and the flow returns a non-nil error that breaks the
read loop. -/
theorem auth_store_failure_then_fatal (mac : String → String → List Nat)
    (h : WebsocketHandler) (conn : websocketConnection) (d : Nat)
    (now now2 : Nat) (ng ng2 : Option String) (sig : String)
    (hst : conn.state = 0) (hfl : conn.stateFlow = .nofl)
    (hmiss : db.findDevice h.db d = none ∨ ng = none) :
    (∃ i, (authenticationFlow mac h conn now ng (authStartMessage d)).2.1 =
      [(conn.connectionID, frame.err { errorCode := -1, info := some i })]) ∧
    (authenticationFlow mac h conn now ng (authStartMessage d)).1.connections.lookup
        conn.connectionID = some { conn with state := 2 } ∧
    (authenticationFlow mac h conn now ng (authStartMessage d)).2.2 = flowExit.normal ∧
    (∃ j, (authenticationFlow mac (authenticationFlow mac h conn now ng (authStartMessage d)).1
        { conn with state := 2 } now2 ng2 (authValidateMessage sig)).2.1 =
      [(conn.connectionID, frame.err { errorCode := -1, info := some j })]) ∧
    (authenticationFlow mac (authenticationFlow mac h conn now ng (authStartMessage d)).1
        { conn with state := 2 } now2 ng2 (authValidateMessage sig)).1.connections.lookup
        conn.connectionID = none ∧
    (∃ j2, (authenticationFlow mac (authenticationFlow mac h conn now ng (authStartMessage d)).1
        { conn with state := 2 } now2 ng2 (authValidateMessage sig)).2.2 =
      flowExit.errReturn j2) := by
  obtain ⟨cid, dev, st, sfl, ca, lm, ps, pr⟩ := conn
  simp only at hst hfl
  subst hst
  subst hfl
  have step2 : ∀ (hh : WebsocketHandler),
      (∃ j, (authenticationFlow mac hh ⟨cid, dev, 2, .nofl, ca, lm, ps, pr⟩ now2 ng2
          (authValidateMessage sig)).2.1 =
        [(cid, frame.err { errorCode := -1, info := some j })]) ∧
      (authenticationFlow mac hh ⟨cid, dev, 2, .nofl, ca, lm, ps, pr⟩ now2 ng2
          (authValidateMessage sig)).1.connections.lookup cid = none ∧
      (∃ j2, (authenticationFlow mac hh ⟨cid, dev, 2, .nofl, ca, lm, ps, pr⟩ now2 ng2
          (authValidateMessage sig)).2.2 = flowExit.errReturn j2) := by
    intro hh
    have hcmd : (authValidateMessage sig).command = "auth_validate" := rfl
    have hclose := closeConnection_lookup_self hh ⟨cid, dev, 2, .nofl, ca, lm, ps, pr⟩
    unfold authenticationFlow
    rw [hcmd]
    simp only [String.reduceEq, if_false, if_true, reduceIte, parse_authValidate, ne_eq,
      not_true_eq_false]
    exact ⟨⟨_, rfl⟩, hclose, ⟨_, rfl⟩⟩
  have hcmd0 : (authStartMessage d).command = "auth_start" := rfl
  have hdb : (setConn h ⟨cid, dev, 2, .nofl, ca, lm, ps, pr⟩).db = h.db := rfl
  have hself := lookup_setConn_self h ⟨cid, dev, 2, .nofl, ca, lm, ps, pr⟩
  unfold authenticationFlow
  rw [hcmd0]
  simp only [String.reduceEq, if_false, if_true, reduceIte, parse_authStart, ne_eq,
    not_true_eq_false, hdb]
  rcases hmiss with hm | hm
  · rw [hm]
    exact ⟨⟨_, rfl⟩, hself, rfl, step2 _⟩
  · subst hm
    cases hfd : db.findDevice h.db d with
    | none => exact ⟨⟨_, rfl⟩, hself, rfl, step2 _⟩
    | some dv => exact ⟨⟨_, rfl⟩, hself, rfl, step2 _⟩

theorem findSession_map_sessions (d : db.DB) (sid : Nat) (f : db.Session → db.Session)
    (hf : ∀ s, (f s).id = s.id) :
    db.findSession { d with sessions := d.sessions.map f } sid =
      (db.findSession d sid).map f := by
  unfold db.findSession
  rw [List.find?_map]
  have hp : ((fun s => s.id == sid) ∘ f) = (fun s : db.Session => s.id == sid) := by
    funext s
    simp [Function.comp, hf]
  rw [hp]

theorem stopSessionWS_db (h : WebsocketHandler) (s : db.Session) :
    (stopSessionWS h s).1.db = h.db := by
  unfold stopSessionWS
  cases h1 : h.connectedDevices.lookup s.deviceID with
  | none => rfl
  | some cid =>
    dsimp only
    cases h2 : h.connections.lookup cid with
    | none => rfl
    | some conn => rfl

/-- C9: for an existing session, `StopSession` persists
`stopped_at = now` on the row, nulls the owning device's
`active_session_id`, hands the sealed session back to the HTTP handler,
and sends no error response to the admin caller — with no assumption
about the device's channel, so this holds whether or not the device is
still connected (the websocket-side `stopSession` error is discarded). -/
theorem stop_session_seals_row_and_clears_device (h : WebsocketHandler) (sm : SessionManager)
    (now sessionID : Nat) (sess : db.Session)
    (hfind : db.findSession h.db sessionID = some sess) :
    db.findSession (StopSession h sm now sessionID).1.db sessionID =
      some { sess with stoppedAt := some now } ∧
    ({ sess with stoppedAt := some now } : db.Session).stoppedAt ≠ none ∧
    (∀ dev ∈ (StopSession h sm now sessionID).1.db.devices,
      dev.id = sess.deviceID → dev.activeSessionID = none) ∧
    (StopSession h sm now sessionID).2.2.1 = some { sess with stoppedAt := some now } ∧
    (StopSession h sm now sessionID).2.2.2.2 = none := by
  have hsid : sess.id = sessionID := by
    have := List.find?_some hfind
    simpa using this
  have hstamp : ∀ s : db.Session,
      ((if s.id = sessionID then { s with stoppedAt := some now } else s) : db.Session).id =
        s.id := by
    intro s
    by_cases hs : s.id = sessionID <;> simp [hs]
  have hd0 : db.findSession { h.db with sessions := h.db.sessions.map (fun s => if s.id = sessionID then { s with stoppedAt := some now } else s) } sessionID = some { sess with stoppedAt := some now } := by
    rw [findSession_map_sessions _ _ _ hstamp, hfind]
    simp [hsid]
  unfold StopSession
  simp only [hd0]
  refine ⟨?_, by simp, ?_, trivial, trivial⟩
  · rw [stopSessionWS_db]
    exact hd0
  · rw [stopSessionWS_db]
    intro dev hdev hdevid
    rcases List.mem_map.mp hdev with ⟨dev0, hmem, rfl⟩
    by_cases hdd : dev0.id = sess.deviceID
    · simp [hdd]
    · simp only [hdd, if_false, reduceIte] at hdevid ⊢

theorem findSession_updateDeviceLastSeen (d : db.DB) (i n sid : Nat) :
    db.findSession (db.updateDeviceLastSeen d i n) sid = db.findSession d sid := rfl

theorem accepted_some_parse (m : websocketMessage) (v : Nat)
    (hm : m.command = "session_vote") (ha : specAcceptedVote m = some v) :
    toSessionVoteMessage m = .ok { command := "session_vote", vote := v } := by
  unfold specAcceptedVote at ha
  unfold toSessionVoteMessage
  rw [hm] at ha ⊢
  simp only [if_true, reduceIte, String.reduceEq, if_false] at ha ⊢
  cases hlk : m.data.lookup "vote" with
  | none => rw [hlk] at ha; simp at ha
  | some g =>
    rw [hlk] at ha
    cases g with
    | num q =>
      by_cases hq : 1 ≤ q ∧ q ≤ 5 ∧ q.den = 1
      · have hval : q.num.toNat = v := by simpa [hq.1, hq.2.1, hq.2.2] using ha
        have hq' : ¬(q < 1 ∨ 5 < q ∨ q.den ≠ 1) := by
          push_neg
          exact ⟨hq.1, hq.2.1, hq.2.2⟩
        simp [hq', hval]
      · simp [hq] at ha
    | str s => simp at ha
    | other t => simp at ha

theorem accepted_none_parse (m : websocketMessage)
    (hm : m.command = "session_vote") (ha : specAcceptedVote m = none) :
    ∃ e, toSessionVoteMessage m = .error e := by
  unfold specAcceptedVote at ha
  unfold toSessionVoteMessage
  rw [hm] at ha ⊢
  simp only [if_true, reduceIte, String.reduceEq, if_false] at ha ⊢
  cases hlk : m.data.lookup "vote" with
  | none => exact ⟨_, rfl⟩
  | some g =>
    rw [hlk] at ha
    cases g with
    | num q =>
      by_cases hq : 1 ≤ q ∧ q ≤ 5 ∧ q.den = 1
      · simp [hq] at ha
      · have hq' : q < 1 ∨ 5 < q ∨ q.den ≠ 1 := by
          rcases not_and_or.mp hq with h1 | h23
          · exact Or.inl (not_le.mp h1)
          · rcases not_and_or.mp h23 with h2 | h3
            · exact Or.inr (Or.inl (not_le.mp h2))
            · exact Or.inr (Or.inr h3)
        simp [hq']
    | str s => exact ⟨_, rfl⟩
    | other t => exact ⟨_, rfl⟩

theorem accepted_vote_range (m : websocketMessage) (v : Nat)
    (ha : specAcceptedVote m = some v) : 1 ≤ v ∧ v ≤ 5 := by
  unfold specAcceptedVote at ha
  by_cases hm : m.command = "session_vote"
  · rw [hm] at ha
    simp only [if_true, reduceIte] at ha
    cases hlk : m.data.lookup "vote" with
    | none => rw [hlk] at ha; simp at ha
    | some g =>
      rw [hlk] at ha
      cases g with
      | num q =>
        by_cases hq : 1 ≤ q ∧ q ≤ 5 ∧ q.den = 1
        · have hval : q.num.toNat = v := by simpa [hq.1, hq.2.1, hq.2.2] using ha
          obtain ⟨h1, h5, hden⟩ := hq
          have hqe : (q.num : ℚ) = q := by
            rw [← Rat.den_eq_one_iff]
            exact hden
          have h1' : (1 : ℤ) ≤ q.num := by
            have : (1 : ℚ) ≤ (q.num : ℚ) := by rw [hqe]; exact h1
            exact_mod_cast this
          have h5' : q.num ≤ 5 := by
            have : (q.num : ℚ) ≤ (5 : ℚ) := by rw [hqe]; exact h5
            exact_mod_cast this
          omega
        · simp [hq] at ha
      | str s => simp at ha
      | other t => simp at ha
  · simp [hm] at ha

theorem findSession_applySessionVote (d : db.DB) (sid v now : Nat) (sess : db.Session)
    (hfind : db.findSession d sid = some sess) (hv1 : 1 ≤ v) (hv5 : v ≤ 5) :
    ∃ sess', db.findSession (applySessionVote d sid v now) sid = some sess' ∧
      sess'.A1_count = sess.A1_count + (if v = 1 then 1 else 0) ∧
      sess'.A2_count = sess.A2_count + (if v = 2 then 1 else 0) ∧
      sess'.A3_count = sess.A3_count + (if v = 3 then 1 else 0) ∧
      sess'.A4_count = sess.A4_count + (if v = 4 then 1 else 0) ∧
      sess'.A5_count = sess.A5_count + (if v = 5 then 1 else 0) := by
  have hsid : sess.id = sid := by
    have := List.find?_some hfind
    simpa using this
  unfold applySessionVote
  interval_cases v <;>
    · rw [findSession_map_sessions _ _ _ (by intro s; by_cases hs : s.id = sid <;> simp [hs]),
        hfind]
      refine ⟨_, rfl, ?_⟩
      simp [hsid]

theorem countAll_eq_sum (inputs : List inboundInput) :
    countAllAcceptedVotes inputs =
      countAcceptedVotes 1 inputs + countAcceptedVotes 2 inputs + countAcceptedVotes 3 inputs +
        countAcceptedVotes 4 inputs + countAcceptedVotes 5 inputs := by
  induction inputs with
  | nil => rfl
  | cons i rest ih =>
    unfold countAllAcceptedVotes countAcceptedVotes at ih ⊢
    rw [List.countP_cons, List.countP_cons, List.countP_cons, List.countP_cons,
      List.countP_cons, List.countP_cons]
    cases ha : specAcceptedVote i.message with
    | none => simp [ha, ih]
    | some v =>
      obtain ⟨h1, h5⟩ := accepted_vote_range i.message v ha
      interval_cases v <;> simp [ha, ih] <;> omega

theorem readLoopStep_session_invariant (mac : String → String → List Nat)
    (h : WebsocketHandler) (connID : Nat) (conn : websocketConnection)
    (sfd : sessionFlowData) (sess : db.Session) (i : inboundInput)
    (hl : h.connections.lookup connID = some conn) (hid : conn.connectionID = connID)
    (hst : conn.state = 4) (hfl : conn.stateFlow = .session sfd)
    (hfind : db.findSession h.db sfd.sessionID = some sess) :
    ∃ conn' sess',
      (readLoopStep mac h connID i).1.connections.lookup connID = some conn' ∧
      conn'.connectionID = connID ∧ conn'.state = 4 ∧ conn'.stateFlow = .session sfd ∧
      db.findSession (readLoopStep mac h connID i).1.db sfd.sessionID = some sess' ∧
      (readLoopStep mac h connID i).2.2 = flowExit.normal ∧
      sess'.A1_count = sess.A1_count +
        (if specAcceptedVote i.message = some 1 then 1 else 0) ∧
      sess'.A2_count = sess.A2_count +
        (if specAcceptedVote i.message = some 2 then 1 else 0) ∧
      sess'.A3_count = sess.A3_count +
        (if specAcceptedVote i.message = some 3 then 1 else 0) ∧
      sess'.A4_count = sess.A4_count +
        (if specAcceptedVote i.message = some 4 then 1 else 0) ∧
      sess'.A5_count = sess.A5_count +
        (if specAcceptedVote i.message = some 5 then 1 else 0) := by
  subst hid
  obtain ⟨cid, dev, st, sfl, ca, lm, ps, pr⟩ := conn
  simp only at hst hfl
  subst hst
  subst hfl
  obtain ⟨now, rp, ng, m⟩ := i
  unfold readLoopStep
  rw [hl]
  simp only
  have hc : (match dev with
    | some d => { setConn h ⟨cid, dev, 4, .session sfd, ca, now, ps, pr⟩ with
        db := db.updateDeviceLastSeen (setConn h ⟨cid, dev, 4, .session sfd, ca, now, ps, pr⟩).db d now }
    | none => setConn h ⟨cid, dev, 4, .session sfd, ca, now, ps, pr⟩).connections =
      (setConn h ⟨cid, dev, 4, .session sfd, ca, now, ps, pr⟩).connections := by
    cases dev <;> rfl
  have hf : db.findSession (match dev with
    | some d => { setConn h ⟨cid, dev, 4, .session sfd, ca, now, ps, pr⟩ with
        db := db.updateDeviceLastSeen (setConn h ⟨cid, dev, 4, .session sfd, ca, now, ps, pr⟩).db d now }
    | none => setConn h ⟨cid, dev, 4, .session sfd, ca, now, ps, pr⟩).db sfd.sessionID =
      some sess := by
    cases dev <;> exact hfind
  generalize hmid_eq : (match dev with
    | some d => { setConn h ⟨cid, dev, 4, .session sfd, ca, now, ps, pr⟩ with
        db := db.updateDeviceLastSeen (setConn h ⟨cid, dev, 4, .session sfd, ca, now, ps, pr⟩).db d now }
    | none => setConn h ⟨cid, dev, 4, .session sfd, ca, now, ps, pr⟩) = hmid
  rw [hmid_eq] at hc hf
  have hself : hmid.connections.lookup cid =
      some (⟨cid, dev, 4, .session sfd, ca, now, ps, pr⟩ : websocketConnection) := by
    rw [hc]
    exact lookup_setConn_self h ⟨cid, dev, 4, .session sfd, ca, now, ps, pr⟩
  by_cases hc1 : m.command = ""
  · have hacc : specAcceptedVote m = none := by
      unfold specAcceptedVote
      rw [hc1]
      simp
    simp only [hc1, reduceIte]
    exact ⟨_, sess, hself, by trivial, by trivial, by trivial, hf, by trivial,
      by simp [hacc], by simp [hacc], by simp [hacc], by simp [hacc], by simp [hacc]⟩
  by_cases hc2 : m.command = "ping"
  · have hacc : specAcceptedVote m = none := by
      unfold specAcceptedVote
      rw [hc2]
      simp
    simp only [hc2, String.reduceEq, reduceIte]
    exact ⟨_, sess, hself, by trivial, by trivial, by trivial, hf, by trivial,
      by simp [hacc], by simp [hacc], by simp [hacc], by simp [hacc], by simp [hacc]⟩
  by_cases hc3 : m.command = "pong"
  · have hacc : specAcceptedVote m = none := by
      unfold specAcceptedVote
      rw [hc3]
      simp
    simp only [hc3, String.reduceEq, reduceIte]
    exact ⟨_, sess, lookup_setConn_self hmid ⟨cid, dev, 4, .session sfd, ca, now, ps, pr + 1⟩,
      by trivial, by trivial, by trivial, hf, by trivial,
      by simp [hacc], by simp [hacc], by simp [hacc], by simp [hacc], by simp [hacc]⟩
  by_cases hc4 : m.command = "reg_start"
  · have hacc : specAcceptedVote m = none := by
      unfold specAcceptedVote
      rw [hc4]
      simp
    simp only [hc4, String.reduceEq, reduceIte, triggersRegistrationFlow, List.any_cons,
      List.any_nil, Bool.or_false, beq_self_eq_true, if_true, registrationFlow, ne_eq]
    simp only [show ((4 : Nat) = 0) = False by simp, not_false_eq_true, if_true, reduceIte]
    exact ⟨_, sess, hself, by trivial, by trivial, by trivial, hf, by trivial,
      by simp [hacc], by simp [hacc], by simp [hacc], by simp [hacc], by simp [hacc]⟩
  by_cases hc5 : m.command = "auth_start"
  · have hacc : specAcceptedVote m = none := by
      unfold specAcceptedVote
      rw [hc5]
      simp
    simp only [hc4, hc5, String.reduceEq, reduceIte, triggersRegistrationFlow,
      triggersAuthenticationFlow, List.any_cons, List.any_nil, Bool.or_false,
      beq_self_eq_true, Bool.true_or, if_true, authenticationFlow, ne_eq]
    simp only [show (("reg_start" : String) == "auth_start") = false by decide, Bool.false_or,
      beq_self_eq_true, if_true, reduceIte]
    simp only [show ((4 : Nat) = 0) = False by simp, not_false_eq_true, if_true, reduceIte]
    exact ⟨_, sess, hself, by trivial, by trivial, by trivial, hf, by trivial,
      by simp [hacc], by simp [hacc], by simp [hacc], by simp [hacc], by simp [hacc]⟩
  by_cases hc6 : m.command = "auth_validate"
  · have hacc : specAcceptedVote m = none := by
      unfold specAcceptedVote
      rw [hc6]
      simp
    simp only [hc4, hc5, hc6, String.reduceEq, reduceIte, triggersRegistrationFlow,
      triggersAuthenticationFlow, List.any_cons, List.any_nil, Bool.or_false,
      beq_self_eq_true, Bool.or_true, if_true, authenticationFlow, ne_eq]
    simp only [show (("reg_start" : String) == "auth_validate") = false by decide,
      show (("auth_start" : String) == "auth_validate") = false by decide, Bool.false_or,
      beq_self_eq_true, if_true, reduceIte]
    simp only [show ((4 : Nat) = 2) = False by simp, not_false_eq_true, if_true, reduceIte]
    exact ⟨_, sess, hself, by trivial, by trivial, by trivial, hf, by trivial,
      by simp [hacc], by simp [hacc], by simp [hacc], by simp [hacc], by simp [hacc]⟩
  by_cases hc7 : m.command = "session_vote"
  · simp only [hc4, hc5, hc6, hc7, String.reduceEq, reduceIte, triggersRegistrationFlow,
      triggersAuthenticationFlow, triggersSessionFlow, List.any_cons, List.any_nil,
      Bool.or_false, if_true, sessionFlow, ne_eq]
    simp only [show (("reg_start" : String) == "session_vote") = false by decide,
      show (("auth_start" : String) == "session_vote") = false by decide,
      show (("auth_validate" : String) == "session_vote") = false by decide, Bool.false_or,
      Bool.or_false, beq_self_eq_true, if_true, reduceIte]
    simp only [show ((4 : Nat) = 4) = True by simp, not_true_eq_false, if_false, reduceIte]
    cases ha : specAcceptedVote m with
    | none =>
      obtain ⟨e, hp⟩ := accepted_none_parse m hc7 ha
      rw [hp]
      exact ⟨_, sess, hself, by trivial, by trivial, by trivial, hf, by trivial,
        by simp [ha], by simp [ha], by simp [ha], by simp [ha], by simp [ha]⟩
    | some v =>
      rw [accepted_some_parse m v hc7 ha]
      obtain ⟨hv1, hv5⟩ := accepted_vote_range m v ha
      obtain ⟨sess', hfs, e1, e2, e3, e4, e5⟩ :=
        findSession_applySessionVote hmid.db sfd.sessionID v now sess hf hv1 hv5
      exact ⟨_, sess', hself, by trivial, by trivial, by trivial, hfs, by trivial,
        by simpa using e1, by simpa using e2, by simpa using e3,
        by simpa using e4, by simpa using e5⟩
  · have hacc : specAcceptedVote m = none := by
      unfold specAcceptedVote
      simp [hc7]
    have hc2' : ¬("ping" = m.command) := fun he => hc2 he.symm
    have hc3' : ¬("pong" = m.command) := fun he => hc3 he.symm
    have hc4' : ¬("reg_start" = m.command) := fun he => hc4 he.symm
    have hc5' : ¬("auth_start" = m.command) := fun he => hc5 he.symm
    have hc6' : ¬("auth_validate" = m.command) := fun he => hc6 he.symm
    have hc7' : ¬("session_vote" = m.command) := fun he => hc7 he.symm
    simp only [hc1, hc2, hc3, if_false, reduceIte, triggersRegistrationFlow,
      triggersAuthenticationFlow, triggersSessionFlow, List.any_cons, List.any_nil,
      Bool.or_false, beq_eq_false_iff_ne.mpr hc4', beq_eq_false_iff_ne.mpr hc5',
      beq_eq_false_iff_ne.mpr hc6', beq_eq_false_iff_ne.mpr hc7', Bool.false_or]
    exact ⟨_, sess, hself, by trivial, by trivial, by trivial, hf, by trivial,
      by simp [hacc], by simp [hacc], by simp [hacc], by simp [hacc], by simp [hacc]⟩

theorem processFrames_session_accounting (mac : String → String → List Nat)
    (inputs : List inboundInput) :
    ∀ (h : WebsocketHandler) (connID : Nat) (conn : websocketConnection)
      (sfd : sessionFlowData) (sess : db.Session),
      h.connections.lookup connID = some conn → conn.connectionID = connID →
      conn.state = 4 → conn.stateFlow = .session sfd →
      db.findSession h.db sfd.sessionID = some sess →
      ∃ sess',
        db.findSession (processFrames mac h connID inputs).1.db sfd.sessionID = some sess' ∧
        sess'.A1_count = sess.A1_count + countAcceptedVotes 1 inputs ∧
        sess'.A2_count = sess.A2_count + countAcceptedVotes 2 inputs ∧
        sess'.A3_count = sess.A3_count + countAcceptedVotes 3 inputs ∧
        sess'.A4_count = sess.A4_count + countAcceptedVotes 4 inputs ∧
        sess'.A5_count = sess.A5_count + countAcceptedVotes 5 inputs := by
  induction inputs with
  | nil =>
    intro h connID conn sfd sess hl hid hst hfl hfind
    exact ⟨sess, hfind, by simp [countAcceptedVotes], by simp [countAcceptedVotes],
      by simp [countAcceptedVotes], by simp [countAcceptedVotes], by simp [countAcceptedVotes]⟩
  | cons i rest ih =>
    intro h connID conn sfd sess hl hid hst hfl hfind
    obtain ⟨conn', sess', hlk', hid', hst', hfl', hfind', hbrk, e1, e2, e3, e4, e5⟩ :=
      readLoopStep_session_invariant mac h connID conn sfd sess i hl hid hst hfl hfind
    obtain ⟨sess'', hfind'', f1, f2, f3, f4, f5⟩ :=
      ih (readLoopStep mac h connID i).1 connID conn' sfd sess' hlk' hid' hst' hfl' hfind'
    have hred : (processFrames mac h connID (i :: rest)).1 =
        (processFrames mac (readLoopStep mac h connID i).1 connID rest).1 := by
      simp only [processFrames, hbrk]
    rw [hred]
    refine ⟨sess'', hfind'', ?_, ?_, ?_, ?_, ?_⟩
    · unfold countAcceptedVotes at f1 ⊢
      rw [List.countP_cons]
      by_cases hb : specAcceptedVote i.message = some 1
      · simp [hb] at e1 ⊢
        omega
      · simp [hb] at e1 ⊢
        omega
    · unfold countAcceptedVotes at f2 ⊢
      rw [List.countP_cons]
      by_cases hb : specAcceptedVote i.message = some 2
      · simp [hb] at e2 ⊢
        omega
      · simp [hb] at e2 ⊢
        omega
    · unfold countAcceptedVotes at f3 ⊢
      rw [List.countP_cons]
      by_cases hb : specAcceptedVote i.message = some 3
      · simp [hb] at e3 ⊢
        omega
      · simp [hb] at e3 ⊢
        omega
    · unfold countAcceptedVotes at f4 ⊢
      rw [List.countP_cons]
      by_cases hb : specAcceptedVote i.message = some 4
      · simp [hb] at e4 ⊢
        omega
      · simp [hb] at e4 ⊢
        omega
    · unfold countAcceptedVotes at f5 ⊢
      rw [List.countP_cons]
      by_cases hb : specAcceptedVote i.message = some 5
      · simp [hb] at e5 ⊢
        omega
      · simp [hb] at e5 ⊢
        omega

/-- C4: over any sequence of inbound frames processed for a connection
in IN_SESSION bound to a voting session, each of the five counters ends
at its start value plus the number of accepted `session_vote` frames of
that value (a frame is accepted exactly when the connection is
IN_SESSION and `d.vote` is a JSON number equal to an integer in
`[1,5]`); hence every counter is monotonically non-decreasing and the
counter sum grows by exactly the total number of accepted votes — with
zeroed counters, `sum(A1..A5)` equals the number of accepted frames. -/
theorem session_vote_counters_accounting (mac : String → String → List Nat)
    (h : WebsocketHandler) (connID : Nat) (conn : websocketConnection)
    (sfd : sessionFlowData) (sess : db.Session) (inputs : List inboundInput)
    (hl : h.connections.lookup connID = some conn) (hid : conn.connectionID = connID)
    (hst : conn.state = 4) (hfl : conn.stateFlow = .session sfd)
    (hfind : db.findSession h.db sfd.sessionID = some sess) :
    ∃ sess',
      db.findSession (processFrames mac h connID inputs).1.db sfd.sessionID = some sess' ∧
      sess'.A1_count = sess.A1_count + countAcceptedVotes 1 inputs ∧
      sess'.A2_count = sess.A2_count + countAcceptedVotes 2 inputs ∧
      sess'.A3_count = sess.A3_count + countAcceptedVotes 3 inputs ∧
      sess'.A4_count = sess.A4_count + countAcceptedVotes 4 inputs ∧
      sess'.A5_count = sess.A5_count + countAcceptedVotes 5 inputs ∧
      sess.A1_count ≤ sess'.A1_count ∧ sess.A2_count ≤ sess'.A2_count ∧
      sess.A3_count ≤ sess'.A3_count ∧ sess.A4_count ≤ sess'.A4_count ∧
      sess.A5_count ≤ sess'.A5_count ∧
      sess'.A1_count + sess'.A2_count + sess'.A3_count + sess'.A4_count + sess'.A5_count =
        sess.A1_count + sess.A2_count + sess.A3_count + sess.A4_count + sess.A5_count +
          countAllAcceptedVotes inputs := by
  obtain ⟨sess', hfs, e1, e2, e3, e4, e5⟩ :=
    processFrames_session_accounting mac inputs h connID conn sfd sess hl hid hst hfl hfind
  have hsum := countAll_eq_sum inputs
  exact ⟨sess', hfs, e1, e2, e3, e4, e5, by omega, by omega, by omega, by omega, by omega,
    by omega⟩

theorem session_vote_counters_accounting_witness :
    ∃ sess',
      db.findSession (processFrames macFixed handler4 0 votes4).1.db 42 = some sess' ∧
      sess'.A1_count = sess42.A1_count + countAcceptedVotes 1 votes4 ∧
      sess'.A2_count = sess42.A2_count + countAcceptedVotes 2 votes4 ∧
      sess'.A3_count = sess42.A3_count + countAcceptedVotes 3 votes4 ∧
      sess'.A4_count = sess42.A4_count + countAcceptedVotes 4 votes4 ∧
      sess'.A5_count = sess42.A5_count + countAcceptedVotes 5 votes4 ∧
      sess42.A1_count ≤ sess'.A1_count ∧ sess42.A2_count ≤ sess'.A2_count ∧
      sess42.A3_count ≤ sess'.A3_count ∧ sess42.A4_count ≤ sess'.A4_count ∧
      sess42.A5_count ≤ sess'.A5_count ∧
      sess'.A1_count + sess'.A2_count + sess'.A3_count + sess'.A4_count + sess'.A5_count =
        sess42.A1_count + sess42.A2_count + sess42.A3_count + sess42.A4_count +
          sess42.A5_count + countAllAcceptedVotes votes4 :=
  session_vote_counters_accounting macFixed handler4 0 conn4
    { sessionID := 42, started := 0 } sess42 votes4 rfl rfl rfl rfl rfl

theorem illegal_command_error0_state_unchanged_witness :
    (∃ i, (readLoopStep macFixed handler6 0
        ⟨17, 0, none, { command := "session_vote", data := [] }⟩).2.1 =
      [(0, frame.err { errorCode := 0, info := some i })]) ∧
    (readLoopStep macFixed handler6 0
        ⟨17, 0, none, { command := "session_vote", data := [] }⟩).1.connections.lookup 0 =
      some { conn6 with latestMessage := 17 } ∧
    (readLoopStep macFixed handler6 0
        ⟨17, 0, none, { command := "session_vote", data := [] }⟩).2.2 = flowExit.normal :=
  illegal_command_error0_state_unchanged macFixed handler6 0 conn6 17 0 none
    { command := "session_vote", data := [] } rfl rfl
    (Or.inr (Or.inr (Or.inl ⟨rfl, by decide⟩)))

theorem pong_increments_and_refreshes_silence_witness :
    (readLoopStep macFixed handler6 0 ⟨17, 0, none, pongMessage⟩).1.connections.lookup 0 =
      some { conn6 with latestMessage := 17, pongsReceived := conn6.pongsReceived + 1 } ∧
    (readLoopStep macFixed handler6 0 ⟨17, 0, none, pongMessage⟩).2.1 = [] ∧
    (readLoopStep macFixed handler6 0 ⟨17, 0, none, pongMessage⟩).2.2 = flowExit.normal :=
  pong_increments_and_refreshes_silence macFixed handler6 0 conn6 17 0 none rfl rfl

theorem reg_start_single_draw_witness :
    1000 ≤ 234 % 9000 + 1000 ∧ 234 % 9000 + 1000 ≤ 9999 ∧
    (registrationFlow handler8 conn8b 234 regStartMessage).1.registrationPins.lookup
        (234 % 9000 + 1000) = some conn8b.connectionID ∧
    (registrationFlow handler8 conn8b 234 regStartMessage).1.connections.lookup
        conn8b.connectionID =
      some { conn8b with state := 1, stateFlow := .registration (234 % 9000 + 1000) } ∧
    (registrationFlow handler8 conn8b 234 regStartMessage).2.1 =
      [(conn8b.connectionID, frame.msg (regPinMessage (234 % 9000 + 1000)))] :=
  reg_start_single_draw handler8 conn8b 234 rfl

theorem auth_store_failure_then_fatal_witness :
    (∃ i, (authenticationFlow macFixed handler6 conn6 1 (some "N") (authStartMessage 7)).2.1 =
      [(conn6.connectionID, frame.err { errorCode := -1, info := some i })]) ∧
    (authenticationFlow macFixed handler6 conn6 1 (some "N")
        (authStartMessage 7)).1.connections.lookup conn6.connectionID =
      some { conn6 with state := 2 } ∧
    (authenticationFlow macFixed handler6 conn6 1 (some "N")
        (authStartMessage 7)).2.2 = flowExit.normal ∧
    (∃ j, (authenticationFlow macFixed
        (authenticationFlow macFixed handler6 conn6 1 (some "N") (authStartMessage 7)).1
        { conn6 with state := 2 } 2 none (authValidateMessage "abcd")).2.1 =
      [(conn6.connectionID, frame.err { errorCode := -1, info := some j })]) ∧
    (authenticationFlow macFixed
        (authenticationFlow macFixed handler6 conn6 1 (some "N") (authStartMessage 7)).1
        { conn6 with state := 2 } 2 none (authValidateMessage "abcd")).1.connections.lookup
        conn6.connectionID = none ∧
    (∃ j2, (authenticationFlow macFixed
        (authenticationFlow macFixed handler6 conn6 1 (some "N") (authStartMessage 7)).1
        { conn6 with state := 2 } 2 none (authValidateMessage "abcd")).2.2 =
      flowExit.errReturn j2) :=
  auth_store_failure_then_fatal macFixed handler6 conn6 7 1 2 (some "N") none "abcd"
    rfl rfl (Or.inl rfl)

theorem stop_session_seals_row_and_clears_device_witness :
    db.findSession (StopSession handler4 ⟨[(1, 42)], [(7, 42)]⟩ 99 42).1.db 42 =
      some { sess42 with stoppedAt := some 99 } ∧
    ({ sess42 with stoppedAt := some 99 } : db.Session).stoppedAt ≠ none ∧
    (∀ dev ∈ (StopSession handler4 ⟨[(1, 42)], [(7, 42)]⟩ 99 42).1.db.devices,
      dev.id = sess42.deviceID → dev.activeSessionID = none) ∧
    (StopSession handler4 ⟨[(1, 42)], [(7, 42)]⟩ 99 42).2.2.1 =
      some { sess42 with stoppedAt := some 99 } ∧
    (StopSession handler4 ⟨[(1, 42)], [(7, 42)]⟩ 99 42).2.2.2.2 = none :=
  stop_session_seals_row_and_clears_device handler4 ⟨[(1, 42)], [(7, 42)]⟩ 99 42 sess42 rfl
